import Mathlib

/-!
Verification of the ClearDeal contract-risk analysis core.

The definitions below are a shallow embedding, translated directly from the
TypeScript source of the repository:

* `calculateScore` — `src/backend/src/scoring/score.engine.ts`
* `applyFlagPenalties`, `clampScore`, `buildScoreInput` —
  `src/backend/src/services/riskHistory.service.ts` (risk-score service part)
* `scanRiskScore` — step 5 of `executeScan` in the scan service
* `addRiskHistoryEntry`, `getRiskTrend`, `createEmptyTrend` —
  `src/backend/src/services/riskHistory.service.ts`
* `engineEvaluate`, `runRule` — `RuleEngine` in `src/backend/src/rules/base.rule.ts`
* `applyStateRules` — `src/backend/src/services/stateRules.service.ts`
* `createStateRules` — `src/backend/src/rules/states/index.ts`
* `analyzeRisk` — `src/backend/src/services/riskAnalysis.service.ts`
* `finContingencyEvaluate` — `FinancingContingencyRule` in the financing rules
* `getSeverityFromScore`, `getRiskSummary`, `getRiskLevel` —
  `src/backend/src/services/risk.service.ts` and the risk-score service

JavaScript numbers are modelled as `ℚ`, JS timestamps as `ℤ`, thrown
exceptions as `Except String`, and the process-wide analysis cache together
with the repositories as an explicit `SysState` record threaded through
`analyzeRisk`.
-/

namespace ClearDeal

/-- Severity levels of a risk flag (`RuleSeverity` in `base.rule.ts`). -/
inductive Severity
  | low
  | medium
  | high
  | critical
  deriving DecidableEq, Repr, Inhabited

/-- A typed risk flag (`RiskFlag` in `risk.types.ts`). -/
structure RiskFlag where
  code : String
  description : String
  severity : Severity
  deriving DecidableEq, Repr, Inhabited

/-- A contract clause (`Clause`): free text, type string, flagged bool. -/
structure Clause where
  text : String
  type : String
  flagged : Bool
  deriving DecidableEq, Repr, Inhabited

/-- A disclosure (`Disclosure`): name, required bool, provided bool. -/
structure Disclosure where
  name : String
  required : Bool
  provided : Bool
  deriving DecidableEq, Repr, Inhabited

/-- An addendum (`Addendum`): name, included bool. -/
structure Addendum where
  name : String
  included : Bool
  deriving DecidableEq, Repr, Inhabited

/-- A contract with its child collections (`Contract` in `contract.types.ts`,
restricted to the fields the analysis core reads). -/
structure Contract where
  id : String
  clauses : List Clause
  disclosures : List Disclosure
  addenda : List Addendum
  deriving DecidableEq, Repr, Inhabited

/-- A persisted risk score (`RiskScore` in `risk.types.ts`); the
`calculatedAt` instant is modelled as an integer timestamp. -/
structure RiskScore where
  contractId : String
  score : ℚ
  calculatedAt : ℤ
  flags : List RiskFlag
  deriving DecidableEq, Repr, Inhabited

/-! ### Scoring engine (`score.engine.ts`, `score.types.ts`, `score.weights.ts`) -/

/-- `ScoreWeights` — one non-negative float per score dimension. -/
structure ScoreWeights where
  clause : ℚ
  disclosure : ℚ
  addendum : ℚ
  unusualClause : ℚ
  missingDocument : ℚ
  stateCompliance : ℚ
  deriving DecidableEq, Repr, Inhabited

/-- `DEFAULT_SCORE_WEIGHTS` from `score.weights.ts`. -/
def DEFAULT_SCORE_WEIGHTS : ScoreWeights :=
  { clause := 0.2
    disclosure := 0.2
    addendum := 0.1
    unusualClause := 0.2
    missingDocument := 0.2
    stateCompliance := 0.1 }

/-- `ScoreEngineInput` from `score.types.ts`. -/
structure ScoreEngineInput where
  contractId : String
  clauses : List String
  disclosures : List String
  addenda : List String
  unusualClauses : List String
  missingDocuments : List String
  state : String
  deriving DecidableEq, Repr, Inhabited

/-- The per-dimension breakdown of a score. -/
structure ScoreBreakdown where
  clauseScore : ℚ
  disclosureScore : ℚ
  addendumScore : ℚ
  unusualClauseScore : ℚ
  missingDocumentScore : ℚ
  stateComplianceScore : ℚ
  deriving DecidableEq, Repr, Inhabited

/-- `ScoreEngineOutput` from `score.types.ts`. -/
structure ScoreEngineOutput where
  contractId : String
  totalScore : ℚ
  breakdown : ScoreBreakdown
  weights : ScoreWeights
  flagged : Bool
  notes : Option String
  deriving DecidableEq, Repr, Inhabited

/-- `calculateScore` from `score.engine.ts`:
per-dimension contributions are `length * weight`, the
`stateComplianceScore` is the bare weight (placeholder), and
`totalScore = max(0, 100 - (clauseScore + unusualClauseScore + missingDocumentScore))`. -/
def calculateScore (input : ScoreEngineInput) (weights : ScoreWeights) : ScoreEngineOutput :=
  let clauseScore := (input.clauses.length : ℚ) * weights.clause
  let disclosureScore := (input.disclosures.length : ℚ) * weights.disclosure
  let addendumScore := (input.addenda.length : ℚ) * weights.addendum
  let unusualClauseScore := (input.unusualClauses.length : ℚ) * weights.unusualClause
  let missingDocumentScore := (input.missingDocuments.length : ℚ) * weights.missingDocument
  let stateComplianceScore := weights.stateCompliance
  let totalScore := max 0 (100 - (clauseScore + unusualClauseScore + missingDocumentScore))
  let flagged := decide (totalScore < 60)
  { contractId := input.contractId
    totalScore := totalScore
    breakdown :=
      { clauseScore := clauseScore
        disclosureScore := disclosureScore
        addendumScore := addendumScore
        unusualClauseScore := unusualClauseScore
        missingDocumentScore := missingDocumentScore
        stateComplianceScore := stateComplianceScore }
    weights := weights
    flagged := flagged
    notes := if flagged then some "High risk detected" else none }

/-! ### Severity penalties (risk-score service) -/

/-- `SEVERITY_PENALTIES` from the risk-score service:
`critical 15, high 10, medium 5, low 2`. -/
def SEVERITY_PENALTIES : Severity → ℚ
  | .critical => 15
  | .high => 10
  | .medium => 5
  | .low => 2

/-- The `reduce` inside `applyFlagPenalties`: total penalty of a flag list. -/
def totalFlagPenalty (flags : List RiskFlag) : ℚ :=
  flags.foldl (fun sum flag => sum + SEVERITY_PENALTIES flag.severity) 0

/-- `clampScore` from the risk-score service: clamp to `[0, 100]`. -/
def clampScore (score : ℚ) : ℚ :=
  max 0 (min 100 score)

/-- `applyFlagPenalties` from the risk-score service. -/
def applyFlagPenalties (baseScore : ℚ) (flags : List RiskFlag) : ℚ :=
  clampScore (baseScore - totalFlagPenalty flags)

/-- `buildScoreInput` from the risk-score service: provided disclosure names,
included addendum names, unusual-typed clause texts, required-but-not-provided
disclosure names; the state is hard-coded `"CA"`. -/
def buildScoreInput (contract : Contract) (contractId : String) : ScoreEngineInput :=
  { contractId := contractId
    clauses := contract.clauses.map (fun c => c.text)
    disclosures := (contract.disclosures.filter (fun d => d.provided)).map (fun d => d.name)
    addenda := (contract.addenda.filter (fun a => a.included)).map (fun a => a.name)
    unusualClauses := (contract.clauses.filter (fun c => c.type == "unusual")).map (fun c => c.text)
    missingDocuments :=
      (contract.disclosures.filter (fun d => d.required && !d.provided)).map (fun d => d.name)
    state := "CA" }

/-- The score value computed and persisted by `calculateAndSaveRiskScore`:
the engine's `totalScore` at the default weights, penalty-adjusted and clamped. -/
def calculateAndSaveScoreValue (contract : Contract) (flags : List RiskFlag) : ℚ :=
  applyFlagPenalties
    (calculateScore (buildScoreInput contract contract.id) DEFAULT_SCORE_WEIGHTS).totalScore
    flags

/-! ### Scan driver score (`executeScan`, step 5) -/

/-- The severity-bucket score of `executeScan`:
`max(0, 100 - 25*critical - 15*high - 5*medium - 2*low)`. -/
def scanRiskScore (allFlags : List RiskFlag) : ℤ :=
  let criticalCount := (allFlags.filter (fun f => f.severity == .critical)).length
  let highCount := (allFlags.filter (fun f => f.severity == .high)).length
  let mediumCount := (allFlags.filter (fun f => f.severity == .medium)).length
  let lowCount := (allFlags.filter (fun f => f.severity == .low)).length
  max 0 (100 - 25 * (criticalCount : ℤ) - 15 * (highCount : ℤ)
    - 5 * (mediumCount : ℤ) - 2 * (lowCount : ℤ))

/-- The claim's "integer-valued" predicate for a JS number modelled in `ℚ`. -/
def IsIntegerValued (q : ℚ) : Prop := q.den = 1

/-! ### Helper lemmas about penalties -/

theorem totalFlagPenalty_eq_sum (flags : List RiskFlag) :
    totalFlagPenalty flags = (flags.map (fun f => SEVERITY_PENALTIES f.severity)).sum := by
  suffices h : ∀ init : ℚ,
      flags.foldl (fun sum flag => sum + SEVERITY_PENALTIES flag.severity) init =
        init + (flags.map (fun f => SEVERITY_PENALTIES f.severity)).sum by
    simpa [totalFlagPenalty] using h 0
  induction flags with
  | nil => intro init; simp
  | cons f fs ih =>
    intro init
    simp [List.foldl_cons, ih, add_assoc]

theorem severity_penalty_nonneg (s : Severity) : 0 ≤ SEVERITY_PENALTIES s := by
  cases s <;> norm_num [SEVERITY_PENALTIES]

theorem totalFlagPenalty_nonneg (flags : List RiskFlag) : 0 ≤ totalFlagPenalty flags := by
  rw [totalFlagPenalty_eq_sum]
  apply List.sum_nonneg
  intro x hx
  obtain ⟨f, _, rfl⟩ := List.mem_map.mp hx
  exact severity_penalty_nonneg _

theorem totalFlagPenalty_eraseIdx_le (flags : List RiskFlag) (i : ℕ) :
    totalFlagPenalty (flags.eraseIdx i) ≤ totalFlagPenalty flags := by
  rw [totalFlagPenalty_eq_sum, totalFlagPenalty_eq_sum]
  apply List.Sublist.sum_le_sum ((List.eraseIdx_sublist flags i).map _)
  intro x hx
  obtain ⟨f, _, rfl⟩ := List.mem_map.mp hx
  exact severity_penalty_nonneg _

theorem clampScore_mono {a b : ℚ} (h : a ≤ b) : clampScore a ≤ clampScore b := by
  unfold clampScore
  exact max_le_max le_rfl (min_le_min le_rfl h)

theorem clampScore_nonneg (q : ℚ) : 0 ≤ clampScore q := le_max_left 0 _

theorem clampScore_le_100 (q : ℚ) : clampScore q ≤ 100 := by
  unfold clampScore
  exact max_le (by norm_num) (min_le_left _ _)

/-! ### Claim C1 -/

/-- A concrete scoring-engine input with a single clause. -/
def c1ExampleInput : ScoreEngineInput :=
  { contractId := "c1"
    clauses := ["financing contingency 21 days"]
    disclosures := []
    addenda := []
    unusualClauses := []
    missingDocuments := []
    state := "CA" }

/-- C1, counterexample: at the default (non-negative) weights, a contract with
one clause gives the scoring engine `totalScore = 100 - 0.2 = 99.8`, which is
not an integer, so the produced `RiskScore` values are not integer-valued as
the claim states (the engine never rounds, and `calculateAndSaveRiskScore`
persists the clamped value unrounded). -/
theorem C1_counterexample_score_not_integer :
    (0 ≤ DEFAULT_SCORE_WEIGHTS.clause ∧ 0 ≤ DEFAULT_SCORE_WEIGHTS.disclosure ∧
      0 ≤ DEFAULT_SCORE_WEIGHTS.addendum ∧ 0 ≤ DEFAULT_SCORE_WEIGHTS.unusualClause ∧
      0 ≤ DEFAULT_SCORE_WEIGHTS.missingDocument ∧ 0 ≤ DEFAULT_SCORE_WEIGHTS.stateCompliance) ∧
    (calculateScore c1ExampleInput DEFAULT_SCORE_WEIGHTS).totalScore = 499 / 5 ∧
    ¬ IsIntegerValued (calculateScore c1ExampleInput DEFAULT_SCORE_WEIGHTS).totalScore := by
  have hval : (calculateScore c1ExampleInput DEFAULT_SCORE_WEIGHTS).totalScore = 499 / 5 := by
    show max 0 (100 - ((1 : ℚ) * 0.2 + 0 * 0.2 + 0 * 0.2)) = 499 / 5
    rw [max_eq_right (by norm_num)]
    norm_num
  refine ⟨by norm_num [DEFAULT_SCORE_WEIGHTS], hval, ?_⟩
  rw [IsIntegerValued, hval]
  have : ((499 : ℚ) / 5).den = 5 := by norm_num [Rat.den]
  omega

/-- C1, amended: with all weights non-negative, every score the system
produces and stores is in `[0, 100]` — the engine's `totalScore`, the
penalty-adjusted value persisted by `calculateAndSaveRiskScore`, and the scan
driver's score; the scan driver's score is moreover an integer, but the engine
and persisted scores need not be (see the counterexample). -/
theorem C1_scores_bounded (input : ScoreEngineInput) (w : ScoreWeights)
    (baseScore : ℚ) (flags penaltyFlags : List RiskFlag) (contract : Contract)
    (hw : 0 ≤ w.clause ∧ 0 ≤ w.disclosure ∧ 0 ≤ w.addendum ∧
      0 ≤ w.unusualClause ∧ 0 ≤ w.missingDocument ∧ 0 ≤ w.stateCompliance) :
    (0 ≤ (calculateScore input w).totalScore ∧ (calculateScore input w).totalScore ≤ 100) ∧
    (0 ≤ applyFlagPenalties baseScore penaltyFlags ∧
      applyFlagPenalties baseScore penaltyFlags ≤ 100) ∧
    (0 ≤ calculateAndSaveScoreValue contract flags ∧
      calculateAndSaveScoreValue contract flags ≤ 100) ∧
    (0 ≤ scanRiskScore flags ∧ scanRiskScore flags ≤ 100) := by
  obtain ⟨hc, -, -, hu, hm, -⟩ := hw
  have hengine : ∀ inp : ScoreEngineInput,
      0 ≤ (calculateScore inp w).totalScore ∧ (calculateScore inp w).totalScore ≤ 100 := by
    intro inp
    have hsum : 0 ≤ (inp.clauses.length : ℚ) * w.clause +
        (inp.unusualClauses.length : ℚ) * w.unusualClause +
        (inp.missingDocuments.length : ℚ) * w.missingDocument := by
      have h1 : 0 ≤ (inp.clauses.length : ℚ) * w.clause :=
        mul_nonneg (by positivity) hc
      have h2 : 0 ≤ (inp.unusualClauses.length : ℚ) * w.unusualClause :=
        mul_nonneg (by positivity) hu
      have h3 : 0 ≤ (inp.missingDocuments.length : ℚ) * w.missingDocument :=
        mul_nonneg (by positivity) hm
      linarith
    constructor
    · exact le_max_left 0 _
    · exact max_le (by norm_num) (by linarith)
  refine ⟨hengine input, ⟨clampScore_nonneg _, clampScore_le_100 _⟩,
    ⟨clampScore_nonneg _, clampScore_le_100 _⟩, ?_, ?_⟩
  · exact le_max_left 0 _
  · simp only [scanRiskScore]
    exact max_le (by norm_num) (by omega)

/-- C1 witness: the amended bound theorem applied at the default weights,
the one-clause example input, and a concrete critical flag. -/
theorem C1_scores_bounded_witness :
    (0 ≤ (calculateScore c1ExampleInput DEFAULT_SCORE_WEIGHTS).totalScore ∧
      (calculateScore c1ExampleInput DEFAULT_SCORE_WEIGHTS).totalScore ≤ 100) ∧
    (0 ≤ applyFlagPenalties 50 [⟨"FIN_CONTINGENCY_MISSING", "missing", .critical⟩] ∧
      applyFlagPenalties 50 [⟨"FIN_CONTINGENCY_MISSING", "missing", .critical⟩] ≤ 100) ∧
    (0 ≤ calculateAndSaveScoreValue ⟨"c1", [], [], []⟩ [] ∧
      calculateAndSaveScoreValue ⟨"c1", [], [], []⟩ [] ≤ 100) ∧
    (0 ≤ scanRiskScore [] ∧ scanRiskScore [] ≤ 100) :=
  C1_scores_bounded c1ExampleInput DEFAULT_SCORE_WEIGHTS 50 []
    [⟨"FIN_CONTINGENCY_MISSING", "missing", .critical⟩] ⟨"c1", [], [], []⟩
    (by norm_num [DEFAULT_SCORE_WEIGHTS])

/-! ### Claim C7 -/

/-- C7, confirmed: the penalty-adjusted final score is monotone in the flag
set — removing any one flag (at any index, of any severity) from the input of
the severity-penalty reduction `{critical 15, high 10, medium 5, low 2}` never
decreases the clamped final score, both for the bare `applyFlagPenalties`
reducer and for the value persisted by `calculateAndSaveRiskScore`. -/
theorem C7_penalty_monotone (baseScore : ℚ) (flags : List RiskFlag) (i : ℕ)
    (contract : Contract) :
    applyFlagPenalties baseScore flags ≤ applyFlagPenalties baseScore (flags.eraseIdx i) ∧
    calculateAndSaveScoreValue contract flags ≤
      calculateAndSaveScoreValue contract (flags.eraseIdx i) := by
  have key : ∀ b : ℚ, applyFlagPenalties b flags ≤ applyFlagPenalties b (flags.eraseIdx i) := by
    intro b
    apply clampScore_mono
    have := totalFlagPenalty_eraseIdx_le flags i
    linarith
  exact ⟨key baseScore, key _⟩

/-! ### String helpers

`containsSub s t` models JavaScript `s.includes(t)`; `toLowerStr` / `toUpperStr`
model `toLowerCase()` / `toUpperCase()` (ASCII case mapping). -/

def containsSub (s t : String) : Bool := decide (t.data <:+: s.data)

def toLowerStr (s : String) : String := ⟨s.data.map Char.toLower⟩

def toUpperStr (s : String) : String := ⟨s.data.map Char.toUpper⟩

theorem containsSub_trans {s t u : String} (h1 : containsSub s t = true)
    (h2 : u.data <:+: t.data) : containsSub s u = true :=
  decide_eq_true (h2.trans (of_decide_eq_true h1))

/-- Association-list lookup, modelling `map[key]` / `Map.get`. -/
def lookupKey {α : Type} : List (String × α) → String → Option α
  | [], _ => none
  | (k, v) :: rest, key => if k = key then some v else lookupKey rest key

/-- Association-list insert-or-replace, modelling `Map.set`. -/
def setKey {α : Type} : List (String × α) → String → α → List (String × α)
  | [], key, value => [(key, value)]
  | (k, v) :: rest, key, value =>
    if k = key then (key, value) :: rest else (k, v) :: setKey rest key value

theorem lookupKey_setKey_self {α : Type} (m : List (String × α)) (k : String) (v : α) :
    lookupKey (setKey m k v) k = some v := by
  induction m with
  | nil => simp [setKey, lookupKey]
  | cons head rest ih =>
    obtain ⟨k', v'⟩ := head
    by_cases h : k' = k
    · simp [setKey, lookupKey, h]
    · simp [setKey, lookupKey, h, ih]

/-! ### Risk-history store (`riskHistory.service.ts`) -/

/-- `MAX_HISTORY_ENTRIES` from the risk-history service. -/
def MAX_HISTORY_ENTRIES : ℕ := 100

/-- `TREND_THRESHOLD` from the risk-history service. -/
def TREND_THRESHOLD : ℚ := 5

/-- One entry of a contract's risk history (`RiskHistoryEntry`). -/
structure HistoryEntry where
  analyzedAt : ℤ
  score : ℚ
  flags : List RiskFlag
  deriving DecidableEq, Repr, Inhabited

/-- The `historyEntry` object literal built inside `addRiskHistoryEntry`. -/
def historyEntryOfScore (score : RiskScore) : HistoryEntry :=
  { analyzedAt := score.calculatedAt
    score := score.score
    flags := score.flags }

/-- `addRiskHistoryEntry` from the risk-history service, as the transformation
it applies to the contract's stored entry list: push the new entry, then if
the length exceeds 100 keep only the last 100 (`slice(-100)`); when no history
exists yet, create a singleton history. -/
def addRiskHistoryEntry (existing : Option (List HistoryEntry)) (score : RiskScore) :
    List HistoryEntry :=
  let historyEntry := historyEntryOfScore score
  match existing with
  | some h =>
    let pushed := h ++ [historyEntry]
    if MAX_HISTORY_ENTRIES < pushed.length then
      pushed.drop (pushed.length - MAX_HISTORY_ENTRIES)
    else pushed
  | none => [historyEntry]

/-- Trend direction type of the risk-history service
(`'improving' | 'stable' | 'worsening'`). -/
inductive TrendDirection
  | improving
  | stable
  | worsening
  deriving DecidableEq, Repr, Inhabited

/-- The label vocabulary the specification uses for trends; the orchestrator
variant additionally has a `new` label, which the history store's
`TrendDirection` cannot even express. -/
inductive TrendLabel
  | improving
  | stable
  | worsening
  | new
  deriving DecidableEq, Repr, Inhabited

/-- Embeds the history store's trend direction into the spec's label set. -/
def trendLabel : TrendDirection → TrendLabel
  | .improving => .improving
  | .stable => .stable
  | .worsening => .worsening

/-- `RiskTrend` from the risk-history service. -/
structure RiskTrend where
  contractId : String
  currentScore : ℚ
  previousScore : Option ℚ
  scoreChange : ℚ
  trend : TrendDirection
  historyCount : ℕ
  deriving DecidableEq, Repr, Inhabited

/-- `createEmptyTrend` from the risk-history service. -/
def createEmptyTrend (contractId : String) : RiskTrend :=
  { contractId := contractId
    currentScore := 0
    previousScore := none
    scoreChange := 0
    trend := .stable
    historyCount := 0 }

/-- `calculateTrendDirection` from the risk-history service. -/
def calculateTrendDirection (scoreChange : ℚ) : TrendDirection :=
  if TREND_THRESHOLD < scoreChange then .improving
  else if scoreChange < -TREND_THRESHOLD then .worsening
  else .stable

/-- `getRiskTrend` from the risk-history service, as a function of the stored
history and the score repository's current score for the contract. -/
def getRiskTrend (history : Option (List HistoryEntry)) (currentScore : Option RiskScore)
    (contractId : String) : RiskTrend :=
  match currentScore with
  | none => createEmptyTrend contractId
  | some cs =>
    let entries := history.getD []
    let previousEntry := if 1 < entries.length then entries.get? (entries.length - 2) else none
    let previousScore := previousEntry.map (fun e => e.score)
    let scoreChange :=
      match previousScore with
      | some p => cs.score - p
      | none => 0
    { contractId := contractId
      currentScore := cs.score
      previousScore := previousScore
      scoreChange := scoreChange
      trend := calculateTrendDirection scoreChange
      historyCount := entries.length }

/-! ### Claim C4 -/

theorem getLast?_drop {α : Type} (l : List α) (n : ℕ) (h : n < l.length) :
    (l.drop n).getLast? = l.getLast? := by
  induction n generalizing l with
  | zero => simp
  | succ m ih =>
    cases l with
    | nil => simp at h
    | cons a t =>
      have ht : m < t.length := by simpa using h
      have hne : t ≠ [] := by
        intro hnil
        rw [hnil] at ht
        simp at ht
      cases t with
      | nil => exact absurd rfl hne
      | cons b t' =>
        simpa [List.drop_succ_cons] using ih (b :: t') ht

/-- C4, confirmed: after any `addRiskHistoryEntry` call the stored history has
length `min (previous + 1) 100` (hence at most 100), the kept entries are a
suffix of the pushed list (oldest evicted first, append order preserved), and
the last entry is exactly the entry built from the just-appended `RiskScore`
(whose `analyzedAt`, `score` and `flags` are the score's `calculatedAt`,
`score` and `flags`). -/
theorem C4_history_append_bounded (existing : Option (List HistoryEntry)) (score : RiskScore) :
    (addRiskHistoryEntry existing score).length =
      min ((existing.getD []).length + 1) MAX_HISTORY_ENTRIES ∧
    (addRiskHistoryEntry existing score).length ≤ 100 ∧
    (addRiskHistoryEntry existing score) <:+ ((existing.getD []) ++ [historyEntryOfScore score]) ∧
    (addRiskHistoryEntry existing score).getLast? = some (historyEntryOfScore score) ∧
    (historyEntryOfScore score).analyzedAt = score.calculatedAt ∧
    (historyEntryOfScore score).score = score.score ∧
    (historyEntryOfScore score).flags = score.flags := by
  have hmax : MAX_HISTORY_ENTRIES = 100 := rfl
  refine ⟨?_, ?_, ?_, ?_, rfl, rfl, rfl⟩
  · cases existing with
    | none => simp [addRiskHistoryEntry, MAX_HISTORY_ENTRIES]
    | some h =>
      simp only [addRiskHistoryEntry, Option.getD_some]
      by_cases hlen : MAX_HISTORY_ENTRIES < (h ++ [historyEntryOfScore score]).length
      · simp only [hlen, if_true, List.length_drop]
        simp only [List.length_append, List.length_cons, List.length_nil] at hlen ⊢
        omega
      · simp only [hlen, if_false]
        simp only [List.length_append, List.length_cons, List.length_nil] at hlen ⊢
        omega
  · cases existing with
    | none => simp [addRiskHistoryEntry, MAX_HISTORY_ENTRIES]
    | some h =>
      simp only [addRiskHistoryEntry, Option.getD_some]
      by_cases hlen : MAX_HISTORY_ENTRIES < (h ++ [historyEntryOfScore score]).length
      · simp only [hlen, if_true, List.length_drop]
        omega
      · simp only [hlen, if_false]
        simp only [List.length_append, List.length_cons, List.length_nil] at hlen ⊢
        omega
  · cases existing with
    | none => simp [addRiskHistoryEntry]
    | some h =>
      simp only [addRiskHistoryEntry, Option.getD_some]
      by_cases hlen : MAX_HISTORY_ENTRIES < (h ++ [historyEntryOfScore score]).length
      · simp only [hlen, if_true]
        exact List.drop_suffix _ _
      · simp only [hlen, if_false]
        exact List.suffix_refl _
  · cases existing with
    | none => simp [addRiskHistoryEntry]
    | some h =>
      simp only [addRiskHistoryEntry, Option.getD_some]
      by_cases hlen : MAX_HISTORY_ENTRIES < (h ++ [historyEntryOfScore score]).length
      · simp only [hlen, if_true]
        rw [getLast?_drop _ _ (by omega)]
        exact List.getLast?_concat _
      · simp only [hlen, if_false]
        exact List.getLast?_concat _

/-! ### Claim C5 -/

/-- C5, counterexample: when no current score exists in the score repository,
`getRiskTrend` returns `createEmptyTrend`, whose trend label is `stable` —
not the `new` label the claim states (the history store's `TrendDirection`
does not even have a `new` label; only the orchestrator variant does). -/
theorem C5_counterexample_empty_trend_label :
    getRiskTrend (some [⟨0, 50, []⟩]) none "c1" = createEmptyTrend "c1" ∧
    trendLabel (getRiskTrend (some [⟨0, 50, []⟩]) none "c1").trend = TrendLabel.stable ∧
    TrendLabel.stable ≠ TrendLabel.new :=
  ⟨rfl, rfl, by decide⟩

theorem dropLast_getLast?_eq_get? {α : Type} (l : List α) :
    l.dropLast.getLast? = if 1 < l.length then l.get? (l.length - 2) else none := by
  rw [List.getLast?_eq_getElem?, List.length_dropLast, List.getElem?_dropLast]
  by_cases h : 1 < l.length
  · rw [if_pos (by omega : l.length - 1 - 1 < l.length - 1), if_pos h, List.get?_eq_getElem?]
    have harith : l.length - 1 - 1 = l.length - 2 := by omega
    rw [harith]
  · rw [if_neg (by omega), if_neg h]

/-- C5, corrected and confirmed in amended form: `getRiskTrend` returns
`createEmptyTrend` (whose label is `stable`, not `new`) when no current score
exists; otherwise the previous score is the second-to-last history entry's
score (equivalently the last entry of `dropLast`), `scoreChange` is current
minus previous (0 with no previous entry), and the direction is `improving`
iff `scoreChange > 5`, `worsening` iff `scoreChange < -5`, else `stable`. -/
theorem C5_trend_spec (history : Option (List HistoryEntry)) (cs : RiskScore) (cid : String) :
    getRiskTrend history none cid = createEmptyTrend cid ∧
    (createEmptyTrend cid).trend = TrendDirection.stable ∧
    (getRiskTrend history (some cs) cid).currentScore = cs.score ∧
    (getRiskTrend history (some cs) cid).previousScore =
      ((history.getD []).dropLast.getLast?).map (fun e => e.score) ∧
    (getRiskTrend history (some cs) cid).scoreChange =
      (((getRiskTrend history (some cs) cid).previousScore).map
        (fun p => cs.score - p)).getD 0 ∧
    (getRiskTrend history (some cs) cid).historyCount = (history.getD []).length ∧
    (getRiskTrend history (some cs) cid).trend =
      calculateTrendDirection (getRiskTrend history (some cs) cid).scoreChange ∧
    (∀ q : ℚ, (calculateTrendDirection q = .improving ↔ 5 < q) ∧
      (calculateTrendDirection q = .worsening ↔ q < -5) ∧
      (calculateTrendDirection q = .stable ↔ -5 ≤ q ∧ q ≤ 5)) := by
  refine ⟨rfl, rfl, rfl, ?_, ?_, rfl, rfl, ?_⟩
  · rw [dropLast_getLast?_eq_get?]
    by_cases h : 1 < (history.getD []).length
    · simp [getRiskTrend, h]
    · simp [getRiskTrend, h]
  · by_cases h : 1 < (history.getD []).length
    · rcases he : (history.getD [])[(history.getD []).length - 2]? with _ | e
      · simp [getRiskTrend, h, List.get?_eq_getElem?, he]
      · simp [getRiskTrend, h, List.get?_eq_getElem?, he]
    · simp [getRiskTrend, h]
  · intro q
    have hthr : TREND_THRESHOLD = 5 := rfl
    unfold calculateTrendDirection
    rw [hthr]
    refine ⟨?_, ?_, ?_⟩
    · constructor
      · intro h
        by_contra hq
        push_neg at hq
        rw [if_neg (not_lt.mpr hq)] at h
        split_ifs at h <;> simp_all
      · intro h
        rw [if_pos h]
    · constructor
      · intro h
        by_contra hq
        push_neg at hq
        split_ifs at h <;> simp_all <;> linarith
      · intro h
        have hn1 : ¬ (5 : ℚ) < q := not_lt.mpr (by linarith)
        rw [if_neg hn1, if_pos h]
    · constructor
      · intro h
        constructor
        · by_contra hq
          push_neg at hq
          have hn1 : ¬ (5 : ℚ) < q := not_lt.mpr (by linarith)
          have hp2 : q < -5 := by linarith
          rw [if_neg hn1, if_pos hp2] at h
          simp_all
        · by_contra hq
          push_neg at hq
          rw [if_pos (by linarith)] at h
          simp_all
      · intro ⟨h1, h2⟩
        have hn1 : ¬ (5 : ℚ) < q := not_lt.mpr h2
        have hn2 : ¬ q < -5 := not_lt.mpr h1
        rw [if_neg hn1, if_neg hn2]

/-! ### Rule primitives and rule engine (`base.rule.ts`) -/

/-- The two fields of a per-state `Partial<RuleConfig>` override that
`isEnabled` / `getSeverity` read (`stateOverrides` values). -/
structure ConfigPatch where
  enabled : Option Bool
  severity : Option Severity
  deriving DecidableEq, Repr, Inhabited

/-- `RuleConfig` from `base.rule.ts`. -/
structure RuleConfig where
  enabled : Bool
  severity : Severity
  customThresholds : List (String × ℚ)
  stateOverrides : List (String × ConfigPatch)
  deriving DecidableEq, Repr, Inhabited

/-- `RuleContext` from `base.rule.ts`. -/
structure RuleContext where
  contract : Contract
  clauses : List Clause
  disclosures : List Disclosure
  addenda : List Addendum
  state : Option String
  contractText : Option String
  deriving DecidableEq, Repr, Inhabited

/-- `RuleResult` from `base.rule.ts`. -/
structure RuleResult where
  ruleId : String
  ruleName : String
  passed : Bool
  flags : List RiskFlag
  details : Option String
  suggestions : Option (List String)
  deriving DecidableEq, Repr, Inhabited

/-- A registered rule. A concrete `BaseRule` subclass's `evaluate` may throw,
which the shallow embedding models as `Except String`. -/
structure MRule where
  id : String
  name : String
  description : String
  category : String
  config : RuleConfig
  eval : RuleContext → Except String RuleResult

/-- `BaseRule.isEnabled` from `base.rule.ts`: disabled config wins; otherwise
a per-state override's `enabled` (defaulting to the config's) when the state
has an override, else enabled. -/
def MRule.isEnabled (rule : MRule) (state : Option String) : Bool :=
  if !rule.config.enabled then false
  else
    match state with
    | some s =>
      match lookupKey rule.config.stateOverrides s with
      | some patch => patch.enabled.getD rule.config.enabled
      | none => true
    | none => true

/-- The error `RuleResult` the engine builds in its `catch` branch: failing,
with a single low-severity `{rule.id}_ERROR` flag. -/
def errorRuleResult (rule : MRule) (e : String) : RuleResult :=
  { ruleId := rule.id
    ruleName := rule.name
    passed := false
    flags := [{ code := rule.id ++ "_ERROR"
                description := "Rule execution failed: " ++ e
                severity := .low }]
    details := some ("Error executing rule: " ++ e)
    suggestions := none }

/-- The `try`/`catch` around one rule inside `RuleEngine.evaluate`. -/
def runRule (rule : MRule) (ctx : RuleContext) : RuleResult :=
  match rule.eval ctx with
  | .ok result => result
  | .error e => errorRuleResult rule e

/-- `RuleEngine.evaluate` from `base.rule.ts`: iterate the registered rules in
registration order, evaluate each enabled one, catching failures. Total — the
engine call itself never throws. -/
def engineEvaluate : List MRule → RuleContext → List RuleResult
  | [], _ => []
  | rule :: rest, ctx =>
    if rule.isEnabled ctx.state then runRule rule ctx :: engineEvaluate rest ctx
    else engineEvaluate rest ctx

theorem engineEvaluate_eq_map_filter (rules : List MRule) (ctx : RuleContext) :
    engineEvaluate rules ctx =
      (rules.filter (fun r => r.isEnabled ctx.state)).map (fun r => runRule r ctx) := by
  induction rules with
  | nil => rfl
  | cons rule rest ih =>
    by_cases h : rule.isEnabled ctx.state
    · simp [engineEvaluate, List.filter_cons, h, ih]
    · simp [engineEvaluate, List.filter_cons, h, ih]

/-! ### Claim C3 -/

/-- C3, confirmed: if a registered, enabled rule's `evaluate` throws, the
engine's result list is still the registration-ordered map over all enabled
rules (so every other registered rule is still evaluated, and the call is a
total function — it never throws), and the throwing rule contributes a
failing `RuleResult` whose flags are exactly one low-severity
`{rule_id}_ERROR` flag. -/
theorem C3_rule_engine_error_isolation (rules : List MRule) (ctx : RuleContext)
    (rule : MRule) (e : String) (hmem : rule ∈ rules)
    (hen : rule.isEnabled ctx.state = true) (herr : rule.eval ctx = .error e) :
    engineEvaluate rules ctx =
      (rules.filter (fun r => r.isEnabled ctx.state)).map (fun r => runRule r ctx) ∧
    runRule rule ctx = errorRuleResult rule e ∧
    (errorRuleResult rule e).passed = false ∧
    (errorRuleResult rule e).flags =
      [⟨rule.id ++ "_ERROR", "Rule execution failed: " ++ e, Severity.low⟩] ∧
    errorRuleResult rule e ∈ engineEvaluate rules ctx := by
  have hrun : runRule rule ctx = errorRuleResult rule e := by
    simp [runRule, herr]
  refine ⟨engineEvaluate_eq_map_filter rules ctx, hrun, rfl, rfl, ?_⟩
  rw [engineEvaluate_eq_map_filter]
  rw [← hrun]
  exact List.mem_map_of_mem _ (List.mem_filter.mpr ⟨hmem, hen⟩)

/-- A rule whose evaluation throws, for the C3 witness. -/
def c3ThrowingRule : MRule :=
  { id := "EMD_AMOUNT"
    name := "Earnest Money Amount"
    description := "Validates earnest money amount against the purchase price"
    category := "earnest_money"
    config := { enabled := true, severity := .medium, customThresholds := [], stateOverrides := [] }
    eval := fun _ => .error "TypeError: cannot read property of undefined" }

/-- A rule whose evaluation succeeds, for the C3 witness. -/
def c3PassingRule : MRule :=
  { id := "CONT_FINANCING"
    name := "Financing Contingency Check"
    description := "Verifies the presence and adequacy of financing contingency terms"
    category := "contingency"
    config := { enabled := true, severity := .high, customThresholds := [], stateOverrides := [] }
    eval := fun _ => .ok
      { ruleId := "CONT_FINANCING", ruleName := "Financing Contingency Check", passed := true
        flags := [], details := none, suggestions := none } }

/-- A concrete evaluation context for witnesses. -/
def witnessCtx : RuleContext :=
  { contract := { id := "c1", clauses := [], disclosures := [], addenda := [] }
    clauses := []
    disclosures := []
    addenda := []
    state := none
    contractText := none }

/-- C3 witness: the isolation theorem at a two-rule engine whose first rule
throws. -/
theorem C3_rule_engine_error_isolation_witness :
    engineEvaluate [c3ThrowingRule, c3PassingRule] witnessCtx =
      (([c3ThrowingRule, c3PassingRule].filter
        (fun r => r.isEnabled witnessCtx.state)).map (fun r => runRule r witnessCtx)) ∧
    runRule c3ThrowingRule witnessCtx =
      errorRuleResult c3ThrowingRule "TypeError: cannot read property of undefined" ∧
    (errorRuleResult c3ThrowingRule "TypeError: cannot read property of undefined").passed
      = false ∧
    (errorRuleResult c3ThrowingRule "TypeError: cannot read property of undefined").flags =
      [⟨c3ThrowingRule.id ++ "_ERROR",
        "Rule execution failed: " ++ "TypeError: cannot read property of undefined",
        Severity.low⟩] ∧
    errorRuleResult c3ThrowingRule "TypeError: cannot read property of undefined" ∈
      engineEvaluate [c3ThrowingRule, c3PassingRule] witnessCtx :=
  C3_rule_engine_error_isolation [c3ThrowingRule, c3PassingRule] witnessCtx
    c3ThrowingRule "TypeError: cannot read property of undefined"
    (List.mem_cons_self _ _) rfl rfl

/-! ### State-rules service (`stateRules.service.ts`) -/

/-- A service-level state rule (`StateRule` in `stateRules.service.ts`). -/
structure StateRule where
  code : String
  description : String
  severity : Severity
  check : Contract → Bool

/-- The `CA` rows of `STATE_RULES` in `stateRules.service.ts`. -/
def CA_SERVICE_RULES : List StateRule :=
  [ { code := "CA_TDS_MISSING"
      description := "California Transfer Disclosure Statement (TDS) is required but missing"
      severity := .critical
      check := fun contract =>
        !(contract.disclosures.any (fun d => containsSub d.name "TDS" && d.provided)) }
  , { code := "CA_NHD_MISSING"
      description := "Natural Hazard Disclosure (NHD) is required but missing"
      severity := .high
      check := fun contract =>
        !(contract.disclosures.any (fun d => containsSub d.name "NHD" && d.provided)) }
  , { code := "CA_LEAD_PAINT"
      description := "Lead-based paint disclosure required for pre-1978 properties"
      severity := .high
      check := fun contract =>
        !(contract.disclosures.any
          (fun d => containsSub (toLowerStr d.name) "lead" && d.provided)) }
  , { code := "CA_EARTHQUAKE"
      description := "Earthquake hazards disclosure required in seismic zones"
      severity := .medium
      check := fun contract =>
        !(contract.disclosures.any
          (fun d => containsSub (toLowerStr d.name) "earthquake" && d.provided)) } ]

/-- The `TX` rows of `STATE_RULES` in `stateRules.service.ts`. -/
def TX_SERVICE_RULES : List StateRule :=
  [ { code := "TX_SELLERS_DISCLOSURE"
      description := "Texas Seller Disclosure Notice is required but missing"
      severity := .critical
      check := fun contract =>
        !(contract.disclosures.any (fun d => containsSub d.name "Seller" && d.provided)) }
  , { code := "TX_HOA_ADDENDUM"
      description := "HOA Addendum required for properties with HOA"
      severity := .high
      check := fun contract =>
        !(contract.addenda.any
          (fun a => containsSub (toLowerStr a.name) "hoa" && a.included)) }
  , { code := "TX_OPTION_PERIOD"
      description := "Option period terms should be clearly defined"
      severity := .medium
      check := fun contract =>
        !(contract.clauses.any
          (fun c => containsSub (toLowerStr c.text) "option period")) } ]

/-- The `FL` rows of `STATE_RULES` in `stateRules.service.ts`. -/
def FL_SERVICE_RULES : List StateRule :=
  [ { code := "FL_RADON_DISCLOSURE"
      description := "Florida Radon Gas Disclosure is required"
      severity := .high
      check := fun contract =>
        !(contract.disclosures.any
          (fun d => containsSub (toLowerStr d.name) "radon" && d.provided)) }
  , { code := "FL_CONDO_RIDER"
      description := "Condominium Rider required for condo purchases"
      severity := .medium
      check := fun contract =>
        !(contract.addenda.any
          (fun a => containsSub (toLowerStr a.name) "condo" && a.included)) }
  , { code := "FL_AS_IS_RIDER"
      description := "As-Is Rider should be reviewed carefully for buyer protection"
      severity := .medium
      check := fun contract =>
        contract.clauses.any
          (fun c => containsSub (toLowerStr c.text) "as-is" && !c.flagged) } ]

/-- The `NY` rows of `STATE_RULES` in `stateRules.service.ts`. -/
def NY_SERVICE_RULES : List StateRule :=
  [ { code := "NY_PROPERTY_CONDITION"
      description := "New York Property Condition Disclosure Statement required"
      severity := .critical
      check := fun contract =>
        !(contract.disclosures.any
          (fun d => containsSub d.name "Property Condition" && d.provided)) }
  , { code := "NY_LEAD_PAINT"
      description := "Lead paint disclosure required for pre-1978 buildings"
      severity := .high
      check := fun contract =>
        !(contract.disclosures.any
          (fun d => containsSub (toLowerStr d.name) "lead" && d.provided)) }
  , { code := "NY_ATTORNEY_REVIEW"
      description := "Attorney review contingency is standard in New York"
      severity := .medium
      check := fun contract =>
        !(contract.clauses.any
          (fun c => containsSub (toLowerStr c.text) "attorney review")) } ]

/-- `STATE_RULES` of `stateRules.service.ts`, as an association list in key
order `CA, TX, FL, NY`. -/
def STATE_RULES : List (String × List StateRule) :=
  [("CA", CA_SERVICE_RULES), ("TX", TX_SERVICE_RULES),
   ("FL", FL_SERVICE_RULES), ("NY", NY_SERVICE_RULES)]

/-- `isStateSupported` of `stateRules.service.ts` (`state in STATE_RULES`,
exact keys, no case folding). -/
def isStateSupportedService (state : String) : Bool :=
  (lookupKey STATE_RULES state).isSome

/-- `applyStateRules` of `stateRules.service.ts` as a function of the
contract repository contents: an unsupported state yields one
`UNSUPPORTED_STATE` medium flag, a missing contract one `CONTRACT_NOT_FOUND`
critical flag, and otherwise the violating state rules in table order. -/
def applyStateRules (contracts : List Contract) (contractId state : String) : List RiskFlag :=
  if !(isStateSupportedService state) then
    [{ code := "UNSUPPORTED_STATE"
       description := "State " ++ state ++ " is not yet supported. Manual review recommended."
       severity := .medium }]
  else
    match contracts.find? (fun c => c.id == contractId) with
    | none =>
      [{ code := "CONTRACT_NOT_FOUND"
         description := "Contract not found for state rule evaluation"
         severity := .critical }]
    | some contract =>
      ((lookupKey STATE_RULES state).getD []).filterMap
        (fun rule =>
          if rule.check contract then
            some { code := rule.code, description := rule.description, severity := rule.severity }
          else none)

/-! ### State registry (`rules/states/index.ts`) -/

/-- `StateInfo` from `rules/states/index.ts`; the per-state rule factory is a
parameter of the registry (the factory bodies live in `ca.rules.ts` … and are
irrelevant to the registry's behaviour for unsupported codes). -/
structure StateInfo where
  code : String
  name : String
  createRules : Option ConfigPatch → List MRule

/-- `STATE_REGISTRY` from `rules/states/index.ts`, in key order
`CA, FL, NY, TX`, parametrised by the four state rule factories. -/
def stateRegistry (caRules flRules nyRules txRules : Option ConfigPatch → List MRule) :
    List (String × StateInfo) :=
  [ ("CA", { code := "CA", name := "California", createRules := caRules })
  , ("FL", { code := "FL", name := "Florida", createRules := flRules })
  , ("NY", { code := "NY", name := "New York", createRules := nyRules })
  , ("TX", { code := "TX", name := "Texas", createRules := txRules }) ]

/-- `isStateSupported` of `rules/states/index.ts`
(`stateCode.toUpperCase() in STATE_REGISTRY`). -/
def isStateSupportedRegistry (registry : List (String × StateInfo)) (stateCode : String) :
    Bool :=
  (lookupKey registry (toUpperStr stateCode)).isSome

/-- `getStateInfo` of `rules/states/index.ts`. -/
def getStateInfo (registry : List (String × StateInfo)) (stateCode : String) :
    Option StateInfo :=
  let code := toUpperStr stateCode
  if !(isStateSupportedRegistry registry code) then none
  else lookupKey registry code

/-- `createStateRules` of `rules/states/index.ts`: empty list for an
unsupported code, otherwise the state's factory output. -/
def createStateRules (registry : List (String × StateInfo)) (stateCode : String)
    (config : Option ConfigPatch) : List MRule :=
  match getStateInfo registry stateCode with
  | none => []
  | some info => info.createRules config

theorem getStateInfo_eq_none {registry : List (String × StateInfo)} {stateCode : String}
    (h : lookupKey registry (toUpperStr stateCode) = none) :
    getStateInfo registry stateCode = none := by
  unfold getStateInfo
  cases hc : isStateSupportedRegistry registry (toUpperStr stateCode)
  · simp [hc]
  · simp [hc, h]

/-! ### Claim C6 -/

/-- C6, confirmed: for a state code not in the registry, `applyStateRules`
produces exactly one `UNSUPPORTED_STATE` flag of medium severity, the
registry's `createStateRules` returns `[]` so the rule engine evaluates
exactly the general rules (the analysis completes — `engineEvaluate` and
`calculateScore` are total), and the state-compliance dimension of the score
breakdown is the weight's default neutral value regardless of the state. -/
theorem C6_unsupported_state (contracts : List Contract) (contractId state : String)
    (caRules flRules nyRules txRules : Option ConfigPatch → List MRule)
    (config : Option ConfigPatch) (generalRules : List MRule) (ctx : RuleContext)
    (input : ScoreEngineInput) (w : ScoreWeights)
    (hsvc : isStateSupportedService state = false)
    (hreg : lookupKey (stateRegistry caRules flRules nyRules txRules) (toUpperStr state)
      = none) :
    applyStateRules contracts contractId state =
      [{ code := "UNSUPPORTED_STATE"
         description := "State " ++ state ++ " is not yet supported. Manual review recommended."
         severity := Severity.medium }] ∧
    createStateRules (stateRegistry caRules flRules nyRules txRules) state config = [] ∧
    engineEvaluate
      (generalRules ++ createStateRules (stateRegistry caRules flRules nyRules txRules)
        state config) ctx =
      engineEvaluate generalRules ctx ∧
    (calculateScore input w).breakdown.stateComplianceScore = w.stateCompliance := by
  have hcreate :
      createStateRules (stateRegistry caRules flRules nyRules txRules) state config = [] := by
    unfold createStateRules
    rw [getStateInfo_eq_none hreg]
  refine ⟨?_, hcreate, ?_, rfl⟩
  · unfold applyStateRules
    rw [hsvc]
    rfl
  · rw [hcreate, List.append_nil]

/-- C6 witness: the unsupported-state theorem at the concrete state code
`"WA"`, empty repositories and trivial factories. -/
theorem C6_unsupported_state_witness :
    applyStateRules [] "c1" "WA" =
      [{ code := "UNSUPPORTED_STATE"
         description := "State " ++ "WA" ++ " is not yet supported. Manual review recommended."
         severity := Severity.medium }] ∧
    createStateRules (stateRegistry (fun _ => []) (fun _ => []) (fun _ => []) (fun _ => []))
      "WA" none = [] ∧
    engineEvaluate
      ([c3PassingRule] ++ createStateRules
        (stateRegistry (fun _ => []) (fun _ => []) (fun _ => []) (fun _ => [])) "WA" none)
      witnessCtx =
      engineEvaluate [c3PassingRule] witnessCtx ∧
    (calculateScore c1ExampleInput DEFAULT_SCORE_WEIGHTS).breakdown.stateComplianceScore =
      DEFAULT_SCORE_WEIGHTS.stateCompliance :=
  C6_unsupported_state [] "c1" "WA" (fun _ => []) (fun _ => []) (fun _ => []) (fun _ => [])
    none [c3PassingRule] witnessCtx c1ExampleInput DEFAULT_SCORE_WEIGHTS rfl rfl

/-! ### Financing contingency rule (`FinancingContingencyRule` in the
financing rules module) -/

/-- The `contingencyTerms` list of `FinancingContingencyRule.evaluate`. -/
def FIN_CONTINGENCY_TERMS : List String :=
  ["financing contingency", "loan contingency", "mortgage contingency",
   "subject to financing", "subject to loan approval"]

/-- The `MISSING` flag created by `FinancingContingencyRule`
(`createFlag('MISSING', …, 'critical')` with rule id `FIN_CONTINGENCY`). -/
def finMissingFlag : RiskFlag :=
  { code := "FIN_CONTINGENCY" ++ "_" ++ "MISSING"
    description := "No financing contingency found - buyer has no protection if loan falls through"
    severity := .critical }

/-- The `WAIVED` flag created by `FinancingContingencyRule`. -/
def finWaivedFlag : RiskFlag :=
  { code := "FIN_CONTINGENCY" ++ "_" ++ "WAIVED"
    description := "Financing contingency appears to be waived - high buyer risk"
    severity := .critical }

/-- `FinancingContingencyRule.evaluate`: lowercases the context text; if no
contingency term occurs, a cash transaction (`all cash` / `cash purchase` /
`no financing`) passes, otherwise the `MISSING` flag is collected; a
`waive` + `financing` co-occurrence adds `WAIVED`; no flags means pass. -/
def finContingencyEvaluate (context : RuleContext) : RuleResult :=
  let text := toLowerStr (context.contractText.getD "")
  let hasContingency := FIN_CONTINGENCY_TERMS.any (fun term => containsSub text term)
  if !hasContingency &&
      (containsSub text "all cash" || containsSub text "cash purchase" ||
        containsSub text "no financing") then
    { ruleId := "FIN_CONTINGENCY", ruleName := "Financing Contingency", passed := true
      flags := []
      details := some "Cash transaction - no financing contingency required"
      suggestions := none }
  else
    let flags :=
      (if !hasContingency then [finMissingFlag] else []) ++
      (if containsSub text "waive" && containsSub text "financing" then [finWaivedFlag] else [])
    if flags.isEmpty then
      { ruleId := "FIN_CONTINGENCY", ruleName := "Financing Contingency", passed := true
        flags := []
        details := some "Financing contingency is present"
        suggestions := none }
    else
      { ruleId := "FIN_CONTINGENCY", ruleName := "Financing Contingency", passed := false
        flags := flags
        details := some "Financing contingency concerns"
        suggestions := some
          ["Add or reinstate financing contingency for buyer protection",
           "Ensure buyer has pre-approval before waiving contingency"] }

/-- The claim's premise: the (lowercased) contract text contains no
financing-related keyword (`financing`, `loan`, or `mortgage` — every
contingency search term contains one of these). -/
def noFinancingKeyword (text : String) : Bool :=
  !(containsSub text "financing" || containsSub text "loan" || containsSub text "mortgage")

/-! ### Claim C9 -/

/-- A context whose text is a cash purchase spelled without `all cash` or
`no financing`. -/
def c9CashPurchaseCtx : RuleContext :=
  { contract := { id := "c9", clauses := [], disclosures := [], addenda := [] }
    clauses := []
    disclosures := []
    addenda := []
    state := none
    contractText := some "cash purchase, closing in 30 days" }

/-- C9, counterexample: the text `"cash purchase, closing in 30 days"`
contains no financing-related keyword and contains neither `all cash` nor
`no financing`, so the claim as stated demands a failing result with the
critical `FIN_CONTINGENCY_MISSING` flag — but the rule passes, because the
code's cash-deal test also accepts `cash purchase`. -/
theorem C9_counterexample_cash_purchase :
    noFinancingKeyword (toLowerStr (c9CashPurchaseCtx.contractText.getD "")) = true ∧
    containsSub (toLowerStr (c9CashPurchaseCtx.contractText.getD "")) "all cash" = false ∧
    containsSub (toLowerStr (c9CashPurchaseCtx.contractText.getD "")) "no financing" = false ∧
    (finContingencyEvaluate c9CashPurchaseCtx).passed = true ∧
    (finContingencyEvaluate c9CashPurchaseCtx).flags = [] := by
  refine ⟨by decide, by decide, by decide, ?_, ?_⟩ <;> decide

/-- C9, amended: under the no-financing-keyword premise the rule passes with
no flags exactly when the text marks a cash deal via `all cash`,
`cash purchase` (the trigger the claim omits), or `no financing`; otherwise
it returns a failing result whose flags are exactly the critical
`FIN_CONTINGENCY_MISSING` flag. -/
theorem C9_financing_missing_amended (context : RuleContext)
    (h : noFinancingKeyword (toLowerStr (context.contractText.getD "")) = true) :
    (if containsSub (toLowerStr (context.contractText.getD "")) "all cash" ||
        containsSub (toLowerStr (context.contractText.getD "")) "cash purchase" ||
        containsSub (toLowerStr (context.contractText.getD "")) "no financing" then
      (finContingencyEvaluate context).passed = true ∧
        (finContingencyEvaluate context).flags = []
    else
      (finContingencyEvaluate context).passed = false ∧
        (finContingencyEvaluate context).flags = [finMissingFlag] ∧
        finMissingFlag.severity = Severity.critical ∧
        finMissingFlag.code = "FIN_CONTINGENCY_MISSING") := by
  have hfin : containsSub (toLowerStr (context.contractText.getD "")) "financing" = false := by
    unfold noFinancingKeyword at h
    simp only [Bool.not_eq_true', Bool.or_eq_false_iff] at h
    exact h.1.1
  have hloan : containsSub (toLowerStr (context.contractText.getD "")) "loan" = false := by
    unfold noFinancingKeyword at h
    simp only [Bool.not_eq_true', Bool.or_eq_false_iff] at h
    exact h.1.2
  have hmort : containsSub (toLowerStr (context.contractText.getD "")) "mortgage" = false := by
    unfold noFinancingKeyword at h
    simp only [Bool.not_eq_true', Bool.or_eq_false_iff] at h
    exact h.2
  have hterm : ∀ term keyword : String,
      containsSub (toLowerStr (context.contractText.getD "")) keyword = false →
      keyword.data <:+: term.data →
      containsSub (toLowerStr (context.contractText.getD "")) term = false := by
    intro term keyword hkw hinf
    cases hq : containsSub (toLowerStr (context.contractText.getD "")) term
    · rfl
    · rw [containsSub_trans hq hinf] at hkw
      exact absurd hkw (by simp)
  have hcont : FIN_CONTINGENCY_TERMS.any
      (fun term => containsSub (toLowerStr (context.contractText.getD "")) term) = false := by
    have ht1 : containsSub (toLowerStr (context.contractText.getD ""))
        "financing contingency" = false := hterm _ "financing" hfin (by decide)
    have ht2 : containsSub (toLowerStr (context.contractText.getD ""))
        "loan contingency" = false := hterm _ "loan" hloan (by decide)
    have ht3 : containsSub (toLowerStr (context.contractText.getD ""))
        "mortgage contingency" = false := hterm _ "mortgage" hmort (by decide)
    have ht4 : containsSub (toLowerStr (context.contractText.getD ""))
        "subject to financing" = false := hterm _ "financing" hfin (by decide)
    have ht5 : containsSub (toLowerStr (context.contractText.getD ""))
        "subject to loan approval" = false := hterm _ "loan" hloan (by decide)
    simp [FIN_CONTINGENCY_TERMS, ht1, ht2, ht3, ht4, ht5]
  by_cases hcash : containsSub (toLowerStr (context.contractText.getD "")) "all cash" ||
      containsSub (toLowerStr (context.contractText.getD "")) "cash purchase" ||
      containsSub (toLowerStr (context.contractText.getD "")) "no financing"
  · rw [if_pos hcash]
    constructor <;>
      simp [finContingencyEvaluate, hcont, hcash]
  · rw [if_neg hcash]
    have hcash' : (containsSub (toLowerStr (context.contractText.getD "")) "all cash" ||
        containsSub (toLowerStr (context.contractText.getD "")) "cash purchase" ||
        containsSub (toLowerStr (context.contractText.getD "")) "no financing") = false := by
      simpa using hcash
    refine ⟨?_, ?_, rfl, rfl⟩ <;>
      simp [finContingencyEvaluate, hcont, hcash', hfin]

/-- A context with empty contract text, for the C9 witness. -/
def c9EmptyCtx : RuleContext :=
  { contract := { id := "c9w", clauses := [], disclosures := [], addenda := [] }
    clauses := []
    disclosures := []
    addenda := []
    state := none
    contractText := some "conventional purchase agreement" }

/-- C9 witness: the amended theorem at a concrete context whose text names no
financing keyword and no cash marker, yielding the failing `MISSING` result. -/
theorem C9_financing_missing_amended_witness :
    (if containsSub (toLowerStr (c9EmptyCtx.contractText.getD "")) "all cash" ||
        containsSub (toLowerStr (c9EmptyCtx.contractText.getD "")) "cash purchase" ||
        containsSub (toLowerStr (c9EmptyCtx.contractText.getD "")) "no financing" then
      (finContingencyEvaluate c9EmptyCtx).passed = true ∧
        (finContingencyEvaluate c9EmptyCtx).flags = []
    else
      (finContingencyEvaluate c9EmptyCtx).passed = false ∧
        (finContingencyEvaluate c9EmptyCtx).flags = [finMissingFlag] ∧
        finMissingFlag.severity = Severity.critical ∧
        finMissingFlag.code = "FIN_CONTINGENCY_MISSING") :=
  C9_financing_missing_amended c9EmptyCtx (by decide)

/-! ### Risk summary severity (`risk.service.ts`) -/

/-- The five-level risk palette of `getRiskLevel` in the risk-score service. -/
inductive RiskLevel
  | low
  | moderate
  | elevated
  | high
  | critical
  deriving DecidableEq, Repr, Inhabited

/-- `getRiskLevel` from the risk-score service:
`≥80 low, ≥60 moderate, ≥40 elevated, ≥20 high, else critical`. -/
def getRiskLevel (score : ℚ) : RiskLevel :=
  if 80 ≤ score then .low
  else if 60 ≤ score then .moderate
  else if 40 ≤ score then .elevated
  else if 20 ≤ score then .high
  else .critical

/-- `getSeverityFromScore` from `risk.service.ts`:
`≥80 critical, ≥60 high, ≥40 medium, else low`. -/
def getSeverityFromScore (score : ℚ) : Severity :=
  if 80 ≤ score then .critical
  else if 60 ≤ score then .high
  else if 40 ≤ score then .medium
  else .low

/-- `RiskSummary` from `risk.service.ts`. -/
structure RiskSummary where
  contractId : String
  score : ℚ
  severity : Severity
  flagCount : ℕ
  lastAnalyzed : Option ℤ
  deriving DecidableEq, Repr, Inhabited

/-- `getRiskSummary` from `risk.service.ts`, as a function of the score
repository's entry for the contract: the stored score (default 0) is labelled
by `getSeverityFromScore`. -/
def getRiskSummary (scoreOpt : Option RiskScore) (contractId : String) : RiskSummary :=
  { contractId := contractId
    score := (scoreOpt.map (fun s => s.score)).getD 0
    severity := getSeverityFromScore ((scoreOpt.map (fun s => s.score)).getD 0)
    flagCount := (scoreOpt.map (fun s => s.flags.length)).getD 0
    lastAnalyzed := scoreOpt.map (fun s => s.calculatedAt) }

/-- Rank of the four-level severity scale, `low < medium < high < critical`. -/
def severityRank : Severity → ℕ
  | .low => 0
  | .medium => 1
  | .high => 2
  | .critical => 3

/-- Danger rank of the five-level palette (higher = riskier). -/
def riskLevelDanger : RiskLevel → ℕ
  | .low => 0
  | .moderate => 1
  | .elevated => 2
  | .high => 3
  | .critical => 4

/-! ### Claim C10 -/

/-- C10, confirmed: `getRiskSummary` labels a contract by the stored score
with `score ≥ 80 → critical`, `80 > score ≥ 60 → high`,
`60 > score ≥ 40 → medium`, `score < 40 → low` (and `low` when no score is
stored, since the score defaults to 0) — so the summary's severity rank is
monotone increasing in the score, while the five-level palette
`getRiskLevel`, derived from the same thresholds, moves in the opposite
direction (its danger rank is monotone decreasing in the score). -/
theorem C10_summary_severity (scoreOpt : Option RiskScore) (contractId : String) (s t : ℚ)
    (hst : s ≤ t) :
    (getRiskSummary scoreOpt contractId).severity =
      getSeverityFromScore ((scoreOpt.map (fun x => x.score)).getD 0) ∧
    (getRiskSummary none contractId).severity = Severity.low ∧
    (80 ≤ t → getSeverityFromScore t = .critical) ∧
    (60 ≤ t ∧ t < 80 → getSeverityFromScore t = .high) ∧
    (40 ≤ t ∧ t < 60 → getSeverityFromScore t = .medium) ∧
    (t < 40 → getSeverityFromScore t = .low) ∧
    severityRank (getSeverityFromScore s) ≤ severityRank (getSeverityFromScore t) ∧
    riskLevelDanger (getRiskLevel t) ≤ riskLevelDanger (getRiskLevel s) := by
  refine ⟨rfl, ?_, ?_, ?_, ?_, ?_, ?_, ?_⟩
  · show getSeverityFromScore 0 = Severity.low
    unfold getSeverityFromScore
    norm_num
  · intro h
    unfold getSeverityFromScore
    rw [if_pos h]
  · intro ⟨h1, h2⟩
    unfold getSeverityFromScore
    rw [if_neg (by linarith), if_pos h1]
  · intro ⟨h1, h2⟩
    unfold getSeverityFromScore
    rw [if_neg (by linarith), if_neg (by linarith), if_pos h1]
  · intro h
    unfold getSeverityFromScore
    rw [if_neg (by linarith), if_neg (by linarith), if_neg (by linarith)]
  · unfold getSeverityFromScore severityRank
    split_ifs <;> simp_all <;> linarith
  · unfold getRiskLevel riskLevelDanger
    split_ifs <;> simp_all <;> linarith

/-- C10 witness: the summary-severity theorem at no stored score and the
concrete pair of scores `30 ≤ 85`, contrasting `critical` severity with the
`low` palette level at 85. -/
theorem C10_summary_severity_witness :
    (getRiskSummary none "c10").severity =
      getSeverityFromScore (((none : Option RiskScore).map (fun x => x.score)).getD 0) ∧
    (getRiskSummary none "c10").severity = Severity.low ∧
    (80 ≤ (85 : ℚ) → getSeverityFromScore 85 = .critical) ∧
    (60 ≤ (85 : ℚ) ∧ (85 : ℚ) < 80 → getSeverityFromScore 85 = .high) ∧
    (40 ≤ (85 : ℚ) ∧ (85 : ℚ) < 60 → getSeverityFromScore 85 = .medium) ∧
    ((85 : ℚ) < 40 → getSeverityFromScore 85 = .low) ∧
    severityRank (getSeverityFromScore 30) ≤ severityRank (getSeverityFromScore 85) ∧
    riskLevelDanger (getRiskLevel 85) ≤ riskLevelDanger (getRiskLevel 30) :=
  C10_summary_severity none "c10" 30 85 (by norm_num)

/-! ### Analysis orchestrator (`riskAnalysis.service.ts`)

`analyzeRisk` reads and writes process-wide state (the `analysisCache` map,
the contract and score repositories) and the clock; the embedding threads an
explicit `SysState` and returns the list of observable side effects
(repository accesses and AI adapter calls) of the invocation. -/

/-- `AnalysisOptions`; the source defaults are `skipAI = false`,
`forceRefresh = false`, `cacheTTL = DEFAULT_CACHE_TTL`. -/
structure AnalysisOptions where
  skipAI : Bool
  forceRefresh : Bool
  cacheTTL : ℤ
  deriving DecidableEq, Repr, Inhabited

/-- `DEFAULT_CACHE_TTL = 60 * 60 * 1000` (one hour in milliseconds). -/
def DEFAULT_CACHE_TTL : ℤ := 60 * 60 * 1000

/-- `RiskAnalysis` from `risk.types.ts`. -/
structure RiskAnalysis where
  contractId : String
  summary : String
  riskScore : RiskScore
  explanations : List String
  deriving DecidableEq, Repr, Inhabited

/-- One slot of the `analysisCache` map (`{ result, timestamp }`). -/
structure CacheEntry where
  result : RiskAnalysis
  timestamp : ℤ
  deriving DecidableEq, Repr, Inhabited

/-- The AI adapter as a deterministic oracle: the parsed risk flags
(`mapRiskFlags(parsed.risks)`) and unusual clauses (text and optional reason)
that the two prompts would yield for a given contract text. -/
structure AIOracle where
  risks : String → List RiskFlag
  unusual : String → List (String × Option String)

/-- Observable side effects of one `analyzeRisk` invocation. -/
inductive Event
  | contractFind
  | aiCall
  | scoreCreate
  | scoreUpdate
  | historyWrite
  deriving DecidableEq, Repr, Inhabited

/-- The mutable world `analyzeRisk` touches: contract repository, score
repository (`create` appends a row), per-contract history store, the
process-wide `analysisCache`, and the clock (`Date.now()`). -/
structure SysState where
  contracts : List Contract
  scores : List RiskScore
  histories : List (String × List HistoryEntry)
  cache : List (String × CacheEntry)
  now : ℤ
  deriving DecidableEq, Repr, Inhabited

/-- `severity.toUpperCase()` on the four severity literals. -/
def severityUpper : Severity → String
  | .low => "LOW"
  | .medium => "MEDIUM"
  | .high => "HIGH"
  | .critical => "CRITICAL"

/-- `generateRiskSummary` from `riskAnalysis.service.ts`. -/
def generateRiskSummary (score : ℚ) (flags : List RiskFlag) (unusualCount : ℕ) : String :=
  let riskLevel :=
    if 80 ≤ score then "Low Risk"
    else if 60 ≤ score then "Moderate Risk"
    else if 40 ≤ score then "Elevated Risk"
    else "High Risk"
  let criticalFlags := (flags.filter (fun f => f.severity == .critical)).length
  let highFlags := (flags.filter (fun f => f.severity == .high)).length
  let summary := riskLevel ++ " (Score: " ++ toString score ++ "/100). " ++
    (if 0 < criticalFlags then toString criticalFlags ++ " critical issue(s) found. " else "") ++
    (if 0 < highFlags then toString highFlags ++ " high-priority issue(s) found. " else "") ++
    (if 0 < unusualCount then toString unusualCount ++ " unusual clause(s) detected. " else "") ++
    (if flags.length = 0 ∧ unusualCount = 0 then "No significant risks detected." else "")
  summary.trim

/-- The cache probe at the top of `analyzeRisk`: unless `forceRefresh`,
return the cached analysis when one exists and is younger than `cacheTTL`. -/
def cacheProbe (st : SysState) (contractId : String) (opts : AnalysisOptions) :
    Option RiskAnalysis :=
  if opts.forceRefresh then none
  else
    match lookupKey st.cache contractId with
    | some entry =>
      if st.now - entry.timestamp < opts.cacheTTL then some entry.result else none
    | none => none

/-- The cache-miss path of `analyzeRisk`: load the contract (throw
`Contract not found` if absent), join the clause texts, consult the AI oracle
unless `skipAI` or the text is empty, score with the default weights, persist
the `RiskScore` via the score repository's `create` (the only repository
write — `analyzeRisk` never calls `update` and never touches the history
store), compose the analysis, and cache it with the current timestamp. -/
def freshAnalysis (ai : AIOracle) (st : SysState) (contractId : String)
    (opts : AnalysisOptions) : Except String (RiskAnalysis × SysState × List Event) :=
  match st.contracts.find? (fun c => c.id == contractId) with
  | none => .error ("Contract not found: " ++ contractId)
  | some contract =>
    let contractText := String.intercalate "\n" (contract.clauses.map (fun c => c.text))
    let useAI := !opts.skipAI && decide (0 < contractText.length)
    let flags := if useAI then ai.risks contractText else []
    let unusualClauses := if useAI then ai.unusual contractText else []
    let scoreInput : ScoreEngineInput :=
      { contractId := contractId
        clauses := contract.clauses.map (fun c => c.text)
        disclosures := (contract.disclosures.filter (fun d => d.provided)).map (fun d => d.name)
        addenda := (contract.addenda.filter (fun a => a.included)).map (fun a => a.name)
        unusualClauses := unusualClauses.map (fun u => u.1)
        missingDocuments :=
          (contract.disclosures.filter (fun d => d.required && !d.provided)).map
            (fun d => d.name)
        state := "CA" }
    let scoreOutput := calculateScore scoreInput DEFAULT_SCORE_WEIGHTS
    let riskScore : RiskScore :=
      { contractId := contractId
        score := scoreOutput.totalScore
        calculatedAt := st.now
        flags := flags }
    let explanations :=
      flags.map (fun f => severityUpper f.severity ++ ": " ++ f.description) ++
      (if 0 < unusualClauses.length then
        ["Found " ++ toString unusualClauses.length ++ " unusual clause(s) that may need review."]
      else [])
    let summary := generateRiskSummary riskScore.score flags unusualClauses.length
    let result : RiskAnalysis :=
      { contractId := contractId
        summary := summary
        riskScore := riskScore
        explanations := explanations }
    let st2 : SysState :=
      { st with
        scores := st.scores ++ [riskScore]
        cache := setKey st.cache contractId { result := result, timestamp := st.now } }
    .ok (result, st2,
      [Event.contractFind] ++ (if useAI then [Event.aiCall, Event.aiCall] else []) ++
        [Event.scoreCreate])

/-- `analyzeRisk` from `riskAnalysis.service.ts`: cache probe, then the fresh
path. A cache hit returns the cached `RiskAnalysis` unchanged, mutates
nothing, and performs no repository or AI access. -/
def analyzeRisk (ai : AIOracle) (st : SysState) (contractId : String)
    (opts : AnalysisOptions) : Except String (RiskAnalysis × SysState × List Event) :=
  match cacheProbe st contractId opts with
  | some cached => .ok (cached, st, [])
  | none => freshAnalysis ai st contractId opts

theorem freshAnalysis_ok (ai : AIOracle) (st : SysState) (contractId : String)
    (opts : AnalysisOptions) (out : RiskAnalysis × SysState × List Event)
    (h : freshAnalysis ai st contractId opts = .ok out) :
    out.2.1.histories = st.histories ∧
    out.2.1.now = st.now ∧
    out.2.1.cache = setKey st.cache contractId { result := out.1, timestamp := st.now } ∧
    out.2.1.scores = st.scores ++ [out.1.riskScore] ∧
    Event.scoreCreate ∈ out.2.2 ∧
    Event.scoreUpdate ∉ out.2.2 ∧
    Event.historyWrite ∉ out.2.2 := by
  unfold freshAnalysis at h
  cases hfind : st.contracts.find? (fun c => c.id == contractId) with
  | none =>
    rw [hfind] at h
    exact absurd h (by simp)
  | some contract =>
    rw [hfind] at h
    dsimp only at h
    injection h with h'
    subst h'
    refine ⟨rfl, rfl, rfl, rfl, ?_, ?_, ?_⟩ <;>
      by_cases hai : (!opts.skipAI && decide
        (0 < (String.intercalate "\n" (contract.clauses.map (fun c => c.text))).length)) <;>
      simp [hai]

/-! ### Claim C2 -/

/-- The stored current score of the counterexample state. -/
def exScore : RiskScore :=
  { contractId := "c1", score := 97, calculatedAt := 500, flags := [] }

/-- The pre-existing history entry of the counterexample state. -/
def exHistoryEntry : HistoryEntry :=
  { analyzedAt := 500, score := 97, flags := [] }

/-- A concrete contract with one clause. -/
def exContract : Contract :=
  { id := "c1"
    clauses := [{ text := "financing contingency 21 days", type := "standard", flagged := false }]
    disclosures := []
    addenda := [] }

/-- A system state in which contract `c1` already has a current `RiskScore`
and one history entry, and the analysis cache is empty. -/
def exState : SysState :=
  { contracts := [exContract]
    scores := [exScore]
    histories := [("c1", [exHistoryEntry])]
    cache := []
    now := 1000 }

/-- Options for the counterexample run (fresh analysis, AI skipped). -/
def exOptions : AnalysisOptions :=
  { skipAI := true, forceRefresh := false, cacheTTL := DEFAULT_CACHE_TTL }

/-- An oracle returning no AI signals. -/
def exOracle : AIOracle :=
  { risks := fun _ => [], unusual := fun _ => [] }

/-- C2, counterexample: in a state where a current `RiskScore` for `c1`
already exists, a fresh `analyzeRisk` run leaves the history store completely
unchanged (it does not append the claimed `RiskHistoryEntry`) and its only
repository writes are a contract lookup and a score-repository `create` — no
`update`, even though a score exists, so the claimed upsert-and-append
behaviour does not hold. -/
theorem C2_counterexample_no_upsert_no_history :
    (exState.scores.filter (fun s => s.contractId == "c1")).length = 1 ∧
    (analyzeRisk exOracle exState "c1" exOptions).toOption.map
      (fun out => (out.2.1.histories, out.2.2)) =
      some (exState.histories, [Event.contractFind, Event.scoreCreate]) :=
  ⟨rfl, rfl⟩

/-- C2, amended: every `analyzeRisk` invocation that computes a fresh
analysis (cache miss, including `forceRefresh`) persists the computed
`RiskScore` through the score repository's `create` operation — even when a
score already exists, it never calls `update` — and appends no
`RiskHistoryEntry`: the contract's history is unchanged by `analyzeRisk`
(only `calculateAndSaveRiskScore`, a different entry point, upserts and
appends history). -/
theorem C2_fresh_analysis_create_only (ai : AIOracle) (st : SysState) (contractId : String)
    (opts : AnalysisOptions) (out : RiskAnalysis × SysState × List Event)
    (hfresh : cacheProbe st contractId opts = none)
    (h : analyzeRisk ai st contractId opts = .ok out) :
    out.2.1.histories = st.histories ∧
    Event.scoreCreate ∈ out.2.2 ∧
    Event.scoreUpdate ∉ out.2.2 ∧
    Event.historyWrite ∉ out.2.2 ∧
    out.2.1.scores = st.scores ++ [out.1.riskScore] := by
  unfold analyzeRisk at h
  rw [hfresh] at h
  obtain ⟨h1, _, _, h4, h5, h6, h7⟩ := freshAnalysis_ok ai st contractId opts out h
  exact ⟨h1, h5, h6, h7, h4⟩

/-- C2 witness: the amended theorem at the concrete counterexample state. -/
theorem C2_fresh_analysis_create_only_witness :
    ((analyzeRisk exOracle exState "c1" exOptions).toOption.getD default).2.1.histories =
      exState.histories ∧
    Event.scoreCreate ∈ ((analyzeRisk exOracle exState "c1" exOptions).toOption.getD
      default).2.2 ∧
    Event.scoreUpdate ∉ ((analyzeRisk exOracle exState "c1" exOptions).toOption.getD
      default).2.2 ∧
    Event.historyWrite ∉ ((analyzeRisk exOracle exState "c1" exOptions).toOption.getD
      default).2.2 ∧
    ((analyzeRisk exOracle exState "c1" exOptions).toOption.getD default).2.1.scores =
      exState.scores ++
        [((analyzeRisk exOracle exState "c1" exOptions).toOption.getD default).1.riskScore] :=
  C2_fresh_analysis_create_only exOracle exState "c1" exOptions
    ((analyzeRisk exOracle exState "c1" exOptions).toOption.getD default) rfl rfl

/-! ### Claim C8 -/

/-- C8, confirmed: if a first `analyzeRisk` call with `forceRefresh = false`
misses the cache and completes, then a second call issued `delta` time units
later (for any `0 ≤ delta < cacheTTL`, i.e. within `cacheTTL` of the first
call caching its result) returns exactly the first call's `RiskAnalysis`,
leaves the state untouched, and performs no AI adapter call and no repository
access (its event list is empty). -/
theorem C8_cached_second_call (ai : AIOracle) (st : SysState) (contractId : String)
    (opts : AnalysisOptions) (out : RiskAnalysis × SysState × List Event) (delta : ℤ)
    (hforce : opts.forceRefresh = false)
    (hfresh : cacheProbe st contractId opts = none)
    (h1 : analyzeRisk ai st contractId opts = .ok out)
    (hdelta : 0 ≤ delta) (httl : delta < opts.cacheTTL) :
    analyzeRisk ai { out.2.1 with now := out.2.1.now + delta } contractId opts =
      .ok (out.1, { out.2.1 with now := out.2.1.now + delta }, []) := by
  unfold analyzeRisk at h1
  rw [hfresh] at h1
  obtain ⟨-, hnow, hcache, -, -, -, -⟩ := freshAnalysis_ok ai st contractId opts out h1
  have hprobe : cacheProbe { out.2.1 with now := out.2.1.now + delta } contractId opts =
      some out.1 := by
    unfold cacheProbe
    rw [hforce]
    have hc : ({ out.2.1 with now := out.2.1.now + delta } : SysState).cache =
        out.2.1.cache := rfl
    rw [if_neg (by simp), hc, hcache, lookupKey_setKey_self]
    have harith : out.2.1.now + delta - st.now < opts.cacheTTL := by
      rw [hnow]
      omega
    dsimp only
    rw [if_pos harith]
  unfold analyzeRisk
  rw [hprobe]

/-- Options for the C8 witness (AI enabled, no forced refresh). -/
def c8Options : AnalysisOptions :=
  { skipAI := false, forceRefresh := false, cacheTTL := DEFAULT_CACHE_TTL }

/-- Oracle for the C8 witness. -/
def c8Oracle : AIOracle :=
  { risks := fun _ => [], unusual := fun _ => [] }

/-- Initial state for the C8 witness: one contract, empty repositories. -/
def c8InitState : SysState :=
  { contracts := [exContract]
    scores := []
    histories := []
    cache := []
    now := 1000 }

/-- The first call's output in the C8 witness scenario. -/
def c8FirstOut : RiskAnalysis × SysState × List Event :=
  (analyzeRisk c8Oracle c8InitState "c1" c8Options).toOption.getD default

/-- C8 witness: the cached-second-call theorem at the concrete scenario, with
the second call one minute after the first. -/
theorem C8_cached_second_call_witness :
    analyzeRisk c8Oracle { c8FirstOut.2.1 with now := c8FirstOut.2.1.now + 60000 } "c1"
      c8Options =
      .ok (c8FirstOut.1, { c8FirstOut.2.1 with now := c8FirstOut.2.1.now + 60000 }, []) :=
  C8_cached_second_call c8Oracle c8InitState "c1" c8Options c8FirstOut 60000 rfl rfl rfl
    (by decide) (by decide)

end ClearDeal
